import Mathlib

/-!
Verification of `remove-x-user-id.py`.

The script applies four regular-expression substitutions (`re.sub`) to a text
and a small CLI driver reads a file, transforms it, and conditionally writes it
back.  We embed the relevant fragment of Python's `re` engine shallowly:

* `RE` is the syntax of the regular expressions actually used by the script:
  literal characters, concatenation, prioritised alternation (Python tries the
  left branch first, so `e?` is `alt e eps`), and greedy Kleene star restricted
  to a character class (`\s*` is the only starred subterm in the script).
* `matchRE` is a backtracking matcher in continuation-passing style that
  explores alternatives in exactly Python's preference order (greedy star:
  longer first; option: present first) and returns the number of characters
  consumed by the preferred match, if any.
* `reSub` mirrors `re.sub`: scan left to right, replace the leftmost match,
  continue after it; a position with no match copies one character.  Python
  also replaces an empty match at the end of the input and advances one
  character past an empty interior match, which `reSub` reproduces; the fuel
  argument (`s.length` suffices, every step consumes at least one character)
  only makes the recursion structural so that proofs and `decide` can
  evaluate it.

Strings are modelled as `List Char`; `String.data` converts literals.
-/

namespace RemoveXUserId

/-- Python's `\s` for `str` patterns: Unicode whitespace.  The exact set is
`[ \t\n\r\f\v\x1c-\x1f\x85\xa0]` plus the Unicode space separators. -/
def isPySpace (c : Char) : Bool :=
  c = ' ' || c = '\t' || c = '\n' || c = '\r' || c = '\x0b' || c = '\x0c' ||
  c = '\x1c' || c = '\x1d' || c = '\x1e' || c = '\x1f' || c = '\x85' || c = '\xa0' ||
  c = '\u1680' || ('\u2000' ≤ c && c ≤ '\u200a') || c = '\u2028' || c = '\u2029' ||
  c = '\u202f' || c = '\u205f' || c = '\u3000'

/-- Regular-expression syntax used by the four patterns of the script. -/
inductive RE where
  | eps : RE
  | ch : Char → RE
  | seq : RE → RE → RE
  | alt : RE → RE → RE
  | starCls : (Char → Bool) → RE

/-- A literal string of characters. -/
def lit : List Char → RE
  | [] => RE.eps
  | c :: cs => RE.seq (RE.ch c) (lit cs)

/-- Concatenation of a list of regular expressions. -/
def cat : List RE → RE
  | [] => RE.eps
  | r :: rs => RE.seq r (cat rs)

/-- Greedy `e?`: Python prefers the branch where `e` is present. -/
def opt (r : RE) : RE := RE.alt r RE.eps

/-- Greedy `\s*`. -/
def wsStar : RE := RE.starCls isPySpace

/-- Greedy star over a character class, in CPS: consume as many class
characters as possible, backtracking to shorter runs (latest positions first)
when the continuation fails — exactly Python's preference order. -/
def starMatch (f : Char → Bool) (k : List Char → Option Nat) : List Char → Option Nat
  | [] => k []
  | a :: rest =>
    if f a then
      match starMatch f k rest with
      | some n => some (n + 1)
      | none => k (a :: rest)
    else k (a :: rest)

/-- Backtracking matcher.  `matchRE r s k` tries to match `r` against a prefix
of `s` in Python's preference order; on each candidate split it runs the
continuation `k` on the remaining suffix, and the first split on which `k`
succeeds wins.  The returned number is the length of the consumed prefix plus
whatever `k` returns. -/
def matchRE : RE → List Char → (List Char → Option Nat) → Option Nat
  | RE.eps, s, k => k s
  | RE.ch c, s, k =>
    match s with
    | [] => none
    | a :: rest => if a = c then (k rest).map (· + 1) else none
  | RE.seq r1 r2, s, k => matchRE r1 s (fun s2 => matchRE r2 s2 k)
  | RE.alt r1 r2, s, k =>
    match matchRE r1 s k with
    | some n => some n
    | none => matchRE r2 s k
  | RE.starCls f, s, k => starMatch f k s

/-- Length of the preferred match of `r` at the start of `s`, if any. -/
def matchLen (r : RE) (s : List Char) : Option Nat :=
  matchRE r s (fun _ => some 0)

/-- Worker for `reSub`.  The fuel only bounds the recursion; `s.length` is
always enough because every recursive call removes at least one character. -/
def reSubGo (r : RE) (repl : List Char → List Char) : Nat → List Char → List Char
  | _, [] =>
    match matchLen r [] with
    | some _ => repl []
    | none => []
  | 0, s => s
  | fuel + 1, a :: rest =>
    match matchLen r (a :: rest) with
    | some n =>
      if 0 < n then
        repl ((a :: rest).take n) ++ reSubGo r repl fuel ((a :: rest).drop n)
      else
        repl [] ++ a :: reSubGo r repl fuel rest
    | none => a :: reSubGo r repl fuel rest

/-- Python's `re.sub(r, repl, s)` for the patterns at hand: replace every
non-overlapping match, scanning left to right. -/
def reSub (r : RE) (repl : List Char → List Char) (s : List Char) : List Char :=
  reSubGo r repl s.length s

/-- Pattern 1 of the script:
`headers:\s*\{\s*'x-user-id':\s*user\??\.id\s*(?:\|\|\s*'')?\s*\},?\s*\n`. -/
def pattern1 : RE :=
  cat [lit "headers:".data, wsStar, RE.ch '{', wsStar, lit "'x-user-id':".data,
    wsStar, lit "user".data, opt (RE.ch '?'), lit ".id".data, wsStar,
    opt (cat [lit "||".data, wsStar, lit "''".data]), wsStar, RE.ch '}',
    opt (RE.ch ','), wsStar, RE.ch '\n']

/-- Pattern 2 of the script:
`,?\s*\n\s*'x-user-id':\s*user\??\.id\s*(?:\|\|\s*'')?\s*,?`. -/
def pattern2 : RE :=
  cat [opt (RE.ch ','), wsStar, RE.ch '\n', wsStar, lit "'x-user-id':".data,
    wsStar, lit "user".data, opt (RE.ch '?'), lit ".id".data, wsStar,
    opt (cat [lit "||".data, wsStar, lit "''".data]), wsStar, opt (RE.ch ',')]

/-- Pattern 3 of the script: `headers:\s*\{\s*\},?\s*\n`. -/
def pattern3 : RE :=
  cat [lit "headers:".data, wsStar, RE.ch '{', wsStar, RE.ch '}',
    opt (RE.ch ','), wsStar, RE.ch '\n']

/-- Group 1 of pattern 4: `\{\s*'Content-Type':\s*'application/json'`. -/
def group4 : RE :=
  cat [RE.ch '{', wsStar, lit "'Content-Type':".data, wsStar,
    lit "'application/json'".data]

/-- Pattern 4 of the script: `(\{\s*'Content-Type':\s*'application/json'),\s*\n\s*\}`. -/
def pattern4 : RE :=
  cat [group4, RE.ch ',', wsStar, RE.ch '\n', wsStar, RE.ch '}']

/-- The replacement template `\1\n        }` of pattern 4.  Group 1 is a
prefix of the whole match and its extent within any string is unique (the
stars in `group4` are each followed by a non-whitespace character), so
re-matching `group4` against the matched text recovers exactly the group. -/
def repl4 (m : List Char) : List Char :=
  match matchLen group4 m with
  | some g => m.take g ++ "\n        \x7d".data
  | none => m

/-- `remove_x_user_id_headers` from the script: the four substitutions in
order, each running on the output of the previous one. -/
def remove_x_user_id_headers (content : List Char) : List Char :=
  let c1 := reSub pattern1 (fun _ => []) content
  let c2 := reSub pattern2 (fun _ => []) c1
  let c3 := reSub pattern3 (fun _ => []) c2
  reSub pattern4 repl4 c3

/-- `occursIn L s` : the character list `L` occurs as a contiguous substring
of `s`. -/
def occursIn (L : List Char) : List Char → Bool
  | [] => L.isEmpty
  | c :: rest => L.isPrefixOf (c :: rest) || occursIn L rest

/-! ### The CLI driver (`main` from the script)

The filesystem is modelled by two oracles: `readF` maps a path to the file's
content or to the message of the exception raised while opening/reading it,
and `writeF` maps a path and content to success or to the message of the
exception raised while opening/writing.  `sys.exit(1)` becomes exit code 1;
falling off the end of `main` becomes exit code 0.  `printed` collects the
status lines in order and `writes` the successful file writes performed. -/

/-- Result of one invocation of the script. -/
structure MainResult where
  printed : List String
  exitCode : Nat
  writes : List (String × String)
deriving DecidableEq

/-- `remove_x_user_id_headers` lifted to `String`. -/
def removeStr (s : String) : String :=
  String.mk (remove_x_user_id_headers s.data)

/-- `main` from the script.  `argv` is the full `sys.argv` (program name
first); the guard `len(sys.argv) < 2` is the wildcard arm of the match, and
`filename = sys.argv[1]` ignores any further arguments. -/
def main (argv : List String)
    (readF : String → Except String String)
    (writeF : String → String → Except String Unit) : MainResult :=
  match argv with
  | _ :: filename :: _ =>
    match readF filename with
    | Except.error e =>
      ⟨["✗ Error processing " ++ filename ++ ": " ++ e], 1, []⟩
    | Except.ok content =>
      let newContent := removeStr content
      if content ≠ newContent then
        match writeF filename newContent with
        | Except.error e =>
          ⟨["✗ Error processing " ++ filename ++ ": " ++ e], 1, []⟩
        | Except.ok _ =>
          ⟨["✓ Fixed " ++ filename], 0, [(filename, newContent)]⟩
      else
        ⟨["- No changes needed in " ++ filename], 0, []⟩
  | _ => ⟨["Usage: python3 remove-x-user-id.py <file>"], 1, []⟩

/-! ### Declarative semantics of the matcher

`Accepts r p` is the usual language membership relation.  We prove that a
successful run of the backtracking matcher exhibits an accepted prefix; from
the shape of the four patterns this forces a characteristic literal substring
to occur in the input, which in turn shows each substitution is the identity
on strings not containing that literal. -/

/-- `r` matches exactly the character list `p`. -/
inductive Accepts : RE → List Char → Prop where
  | eps : Accepts RE.eps []
  | ch (c : Char) : Accepts (RE.ch c) [c]
  | seq {r1 r2 : RE} {p q : List Char} :
      Accepts r1 p → Accepts r2 q → Accepts (RE.seq r1 r2) (p ++ q)
  | altL {r1 r2 : RE} {p : List Char} : Accepts r1 p → Accepts (RE.alt r1 r2) p
  | altR {r1 r2 : RE} {p : List Char} : Accepts r2 p → Accepts (RE.alt r1 r2) p
  | starNil (f : Char → Bool) : Accepts (RE.starCls f) []
  | starCons {f : Char → Bool} {c : Char} {p : List Char} :
      f c = true → Accepts (RE.starCls f) p → Accepts (RE.starCls f) (c :: p)

theorem starMatch_sound (f : Char → Bool) (k : List Char → Option Nat) :
    ∀ (s : List Char) (n : Nat), starMatch f k s = some n →
      ∃ p q, s = p ++ q ∧ Accepts (RE.starCls f) p ∧ ∃ m, k q = some m := by
  intro s
  induction s with
  | nil =>
    intro n h
    exact ⟨[], [], rfl, Accepts.starNil f, n, h⟩
  | cons a rest ih =>
    intro n h
    simp only [starMatch] at h
    by_cases hf : f a = true
    · rw [if_pos hf] at h
      cases hsm : starMatch f k rest with
      | some n2 =>
        obtain ⟨p, q, hpq, hacc, m, hk⟩ := ih n2 hsm
        exact ⟨a :: p, q, by rw [hpq]; rfl, Accepts.starCons hf hacc, m, hk⟩
      | none =>
        rw [hsm] at h
        exact ⟨[], a :: rest, rfl, Accepts.starNil f, n, h⟩
    · rw [if_neg hf] at h
      exact ⟨[], a :: rest, rfl, Accepts.starNil f, n, h⟩

theorem matchRE_sound :
    ∀ (r : RE) (s : List Char) (k : List Char → Option Nat) (n : Nat),
      matchRE r s k = some n →
      ∃ p q, s = p ++ q ∧ Accepts r p ∧ ∃ m, k q = some m := by
  intro r
  induction r with
  | eps =>
    intro s k n h
    exact ⟨[], s, rfl, Accepts.eps, n, h⟩
  | ch c =>
    intro s k n h
    cases s with
    | nil => simp [matchRE] at h
    | cons a rest =>
      by_cases hac : a = c
      · subst hac
        rw [matchRE, if_pos rfl] at h
        obtain ⟨m, hk, -⟩ := Option.map_eq_some'.mp h
        exact ⟨[a], rest, rfl, Accepts.ch a, m, hk⟩
      · rw [matchRE, if_neg hac] at h
        exact absurd h (by simp)
  | seq r1 r2 ih1 ih2 =>
    intro s k n h
    rw [matchRE] at h
    obtain ⟨p, q, hs, hacc1, m, hk⟩ := ih1 s _ n h
    obtain ⟨p2, q2, hq, hacc2, m2, hk2⟩ := ih2 q k m hk
    refine ⟨p ++ p2, q2, ?_, Accepts.seq hacc1 hacc2, m2, hk2⟩
    rw [hs, hq, List.append_assoc]
  | alt r1 r2 ih1 ih2 =>
    intro s k n h
    rw [matchRE] at h
    cases h1 : matchRE r1 s k with
    | some n1 =>
      obtain ⟨p, q, hs, hacc, m, hk⟩ := ih1 s k n1 h1
      exact ⟨p, q, hs, Accepts.altL hacc, m, hk⟩
    | none =>
      rw [h1] at h
      obtain ⟨p, q, hs, hacc, m, hk⟩ := ih2 s k n h
      exact ⟨p, q, hs, Accepts.altR hacc, m, hk⟩
  | starCls f =>
    intro s k n h
    rw [matchRE] at h
    exact starMatch_sound f k s n h

theorem accepts_seq_inv {r1 r2 : RE} {p : List Char} (h : Accepts (RE.seq r1 r2) p) :
    ∃ p1 p2, p = p1 ++ p2 ∧ Accepts r1 p1 ∧ Accepts r2 p2 := by
  cases h with
  | seq h1 h2 => exact ⟨_, _, rfl, h1, h2⟩

theorem accepts_alt_inv {r1 r2 : RE} {p : List Char} (h : Accepts (RE.alt r1 r2) p) :
    Accepts r1 p ∨ Accepts r2 p := by
  cases h with
  | altL h1 => exact Or.inl h1
  | altR h2 => exact Or.inr h2

theorem accepts_eps_inv {p : List Char} (h : Accepts RE.eps p) : p = [] := by
  cases h; rfl

theorem accepts_ch_inv {c : Char} {p : List Char} (h : Accepts (RE.ch c) p) : p = [c] := by
  cases h; rfl

theorem accepts_lit {L p : List Char} (h : Accepts (lit L) p) : p = L := by
  induction L generalizing p with
  | nil =>
    simp only [lit] at h
    exact accepts_eps_inv h
  | cons c cs ih =>
    simp only [lit] at h
    obtain ⟨p1, p2, rfl, h1, h2⟩ := accepts_seq_inv h
    rw [accepts_ch_inv h1, ih h2]
    rfl

/-! ### Substring occurrence -/

theorem occursIn_iff (L s : List Char) :
    occursIn L s = true ↔ ∃ x y, s = x ++ L ++ y := by
  induction s with
  | nil =>
    simp only [occursIn, List.isEmpty_iff]
    constructor
    · intro h
      exact ⟨[], [], by simp [h]⟩
    · rintro ⟨x, y, hxy⟩
      rcases List.append_eq_nil.mp (List.append_eq_nil.mp hxy.symm).1 with ⟨-, h2⟩
      exact h2
  | cons c rest ih =>
    simp only [occursIn, Bool.or_eq_true, ih]
    constructor
    · rintro (hpre | ⟨x, y, rfl⟩)
      · obtain ⟨t, ht⟩ := List.isPrefixOf_iff_prefix.mp hpre
        exact ⟨[], t, by simp [← ht]⟩
      · exact ⟨c :: x, y, by simp⟩
    · rintro ⟨x, y, hxy⟩
      cases x with
      | nil =>
        refine Or.inl (List.isPrefixOf_iff_prefix.mpr ⟨y, ?_⟩)
        simpa using hxy.symm
      | cons c2 x2 =>
        simp only [List.cons_append, List.cons.injEq] at hxy
        exact Or.inr ⟨x2, y, hxy.2⟩

theorem occursIn_of_eq {L x y : List Char} (s : List Char) (h : s = x ++ L ++ y) :
    occursIn L s = true :=
  (occursIn_iff L s).mpr ⟨x, y, h⟩

theorem occursIn_drop {L s : List Char} (i : Nat)
    (h : occursIn L (s.drop i) = true) : occursIn L s = true := by
  rw [occursIn_iff] at h ⊢
  obtain ⟨x, y, hxy⟩ := h
  refine ⟨s.take i ++ x, y, ?_⟩
  conv_lhs => rw [← List.take_append_drop i s]
  rw [hxy]
  simp [List.append_assoc]

/-! ### A substitution with no match anywhere is the identity -/

theorem reSubGo_id {r : RE} {repl : List Char → List Char} :
    ∀ (fuel : Nat) (s : List Char),
      (∀ i, matchLen r (s.drop i) = none) → reSubGo r repl fuel s = s := by
  intro fuel
  induction fuel with
  | zero =>
    intro s h
    cases s with
    | nil =>
      have h0 := h 0
      simp only [List.drop_zero] at h0
      simp [reSubGo, h0]
    | cons a rest => rfl
  | succ fuel ih =>
    intro s h
    cases s with
    | nil =>
      have h0 := h 0
      simp only [List.drop_zero] at h0
      simp [reSubGo, h0]
    | cons a rest =>
      have h0 := h 0
      simp only [List.drop_zero] at h0
      simp only [reSubGo, h0]
      have := ih rest (fun i => by
        have hi := h (i + 1)
        simpa using hi)
      rw [this]

theorem reSub_id {r : RE} {repl : List Char → List Char} {s : List Char}
    (h : ∀ i, matchLen r (s.drop i) = none) : reSub r repl s = s :=
  reSubGo_id s.length s h

/-- If every successful match of `pat` forces the literal `L` to occur in the
scanned text, then on a text without `L` the substitution does nothing. -/
theorem reSub_eq_of_requires {pat : RE} {L : List Char} {repl : List Char → List Char}
    {s : List Char}
    (H : ∀ t k n, matchRE pat t k = some n → occursIn L t = true)
    (hL : occursIn L s = false) : reSub pat repl s = s := by
  apply reSub_id
  intro i
  cases hm : matchLen pat (s.drop i) with
  | none => rfl
  | some n =>
    have hocc := occursIn_drop i (H _ _ _ hm)
    rw [hL] at hocc
    cases hocc

/-- Disjunctive variant of `reSub_eq_of_requires` for a pattern that forces
one of two literals to occur. -/
theorem reSub_eq_of_requires2 {pat : RE} {L1 L2 : List Char}
    {repl : List Char → List Char} {s : List Char}
    (H : ∀ t k n, matchRE pat t k = some n →
      occursIn L1 t = true ∨ occursIn L2 t = true)
    (h1 : occursIn L1 s = false) (h2 : occursIn L2 s = false) :
    reSub pat repl s = s := by
  apply reSub_id
  intro i
  cases hm : matchLen pat (s.drop i) with
  | none => rfl
  | some n =>
    rcases H _ _ _ hm with hocc | hocc
    · have := occursIn_drop i hocc
      rw [h1] at this
      cases this
    · have := occursIn_drop i hocc
      rw [h2] at this
      cases this

/-! ### Characteristic literals of the four patterns -/

theorem matchRE_pattern1_headers {s : List Char} {k : List Char → Option Nat} {n : Nat}
    (h : matchRE pattern1 s k = some n) : occursIn "headers:".data s = true := by
  obtain ⟨p, q, hs, hp, -, -⟩ := matchRE_sound pattern1 s k n h
  simp only [pattern1, cat] at hp
  obtain ⟨p1, p2, hp12, h1, -⟩ := accepts_seq_inv hp
  rw [accepts_lit h1] at hp12
  refine occursIn_of_eq (x := []) (y := p2 ++ q) s ?_
  rw [hs, hp12]
  simp

theorem matchRE_pattern3_headers {s : List Char} {k : List Char → Option Nat} {n : Nat}
    (h : matchRE pattern3 s k = some n) : occursIn "headers:".data s = true := by
  obtain ⟨p, q, hs, hp, -, -⟩ := matchRE_sound pattern3 s k n h
  simp only [pattern3, cat] at hp
  obtain ⟨p1, p2, hp12, h1, -⟩ := accepts_seq_inv hp
  rw [accepts_lit h1] at hp12
  refine occursIn_of_eq (x := []) (y := p2 ++ q) s ?_
  rw [hs, hp12]
  simp

theorem matchRE_pattern2_xuid {s : List Char} {k : List Char → Option Nat} {n : Nat}
    (h : matchRE pattern2 s k = some n) : occursIn "x-user-id".data s = true := by
  obtain ⟨p, q, hs, hp, -, -⟩ := matchRE_sound pattern2 s k n h
  simp only [pattern2, cat] at hp
  obtain ⟨p1, t1, rfl, -, hp⟩ := accepts_seq_inv hp
  obtain ⟨p2, t2, rfl, -, hp⟩ := accepts_seq_inv hp
  obtain ⟨p3, t3, rfl, -, hp⟩ := accepts_seq_inv hp
  obtain ⟨p4, t4, rfl, -, hp⟩ := accepts_seq_inv hp
  obtain ⟨p5, t5, rfl, h5, -⟩ := accepts_seq_inv hp
  have h5L : p5 = "'x-user-id':".data := accepts_lit h5
  have hsplit : "'x-user-id':".data = "'".data ++ "x-user-id".data ++ "':".data := by decide
  refine occursIn_of_eq (x := p1 ++ (p2 ++ (p3 ++ (p4 ++ "'".data))))
    (y := "':".data ++ (t5 ++ q)) s ?_
  rw [hs, h5L, hsplit]
  simp [List.append_assoc]

theorem matchRE_pattern2_userid {s : List Char} {k : List Char → Option Nat} {n : Nat}
    (h : matchRE pattern2 s k = some n) :
    occursIn "user.id".data s = true ∨ occursIn "user?.id".data s = true := by
  obtain ⟨p, q, hs, hp, -, -⟩ := matchRE_sound pattern2 s k n h
  simp only [pattern2, cat] at hp
  obtain ⟨p1, t1, rfl, -, hp⟩ := accepts_seq_inv hp
  obtain ⟨p2, t2, rfl, -, hp⟩ := accepts_seq_inv hp
  obtain ⟨p3, t3, rfl, -, hp⟩ := accepts_seq_inv hp
  obtain ⟨p4, t4, rfl, -, hp⟩ := accepts_seq_inv hp
  obtain ⟨p5, t5, rfl, -, hp⟩ := accepts_seq_inv hp
  obtain ⟨p6, t6, rfl, -, hp⟩ := accepts_seq_inv hp
  obtain ⟨p7, t7, rfl, h7, hp⟩ := accepts_seq_inv hp
  obtain ⟨p8, t8, rfl, h8, hp⟩ := accepts_seq_inv hp
  obtain ⟨p9, t9, rfl, h9, -⟩ := accepts_seq_inv hp
  have h7L : p7 = "user".data := accepts_lit h7
  have h9L : p9 = ".id".data := accepts_lit h9
  rcases accepts_alt_inv h8 with h8q | h8e
  · have h8L : p8 = ['?'] := accepts_ch_inv h8q
    have hsplit : "user?.id".data = "user".data ++ ['?'] ++ ".id".data := by decide
    refine Or.inr (occursIn_of_eq
      (x := p1 ++ (p2 ++ (p3 ++ (p4 ++ (p5 ++ p6))))) (y := t9 ++ q) s ?_)
    rw [hs, h7L, h8L, h9L, hsplit]
    simp [List.append_assoc]
  · have h8L : p8 = [] := accepts_eps_inv h8e
    have hsplit : "user.id".data = "user".data ++ ".id".data := by decide
    refine Or.inl (occursIn_of_eq
      (x := p1 ++ (p2 ++ (p3 ++ (p4 ++ (p5 ++ p6))))) (y := t9 ++ q) s ?_)
    rw [hs, h7L, h8L, h9L, hsplit]
    simp [List.append_assoc]

theorem matchRE_pattern4_ct {s : List Char} {k : List Char → Option Nat} {n : Nat}
    (h : matchRE pattern4 s k = some n) : occursIn "Content-Type".data s = true := by
  obtain ⟨p, q, hs, hp, -, -⟩ := matchRE_sound pattern4 s k n h
  simp only [pattern4, group4, cat] at hp
  obtain ⟨pg, t0, rfl, hg, -⟩ := accepts_seq_inv hp
  obtain ⟨g1, u1, rfl, -, hg⟩ := accepts_seq_inv hg
  obtain ⟨g2, u2, rfl, -, hg⟩ := accepts_seq_inv hg
  obtain ⟨g3, u3, rfl, h3, -⟩ := accepts_seq_inv hg
  have h3L : g3 = "'Content-Type':".data := accepts_lit h3
  have hsplit : "'Content-Type':".data = "'".data ++ "Content-Type".data ++ "':".data := by
    decide
  refine occursIn_of_eq (x := g1 ++ (g2 ++ "'".data))
    (y := "':".data ++ (u3 ++ (t0 ++ q))) s ?_
  rw [hs, h3L, hsplit]
  simp [List.append_assoc]

/-! ### The claims -/

set_option maxRecDepth 1000000

/-- C1, counterexample: `remove_x_user_id_headers` is not idempotent.  On this
input the pattern-1 removal of the first pass splices the surrounding text
into a fresh pattern-1 match (`re.sub` resumes scanning after the removed
match, so the new match is only seen by a second run), and the second pass
removes it too. -/
theorem claim1_counterexample :
    remove_x_user_id_headers (remove_x_user_id_headers
      "headers:headers: \x7b 'x-user-id': user.id \x7d,\n \x7b 'x-user-id': user.id \x7d,\n".data) ≠
    remove_x_user_id_headers
      "headers:headers: \x7b 'x-user-id': user.id \x7d,\n \x7b 'x-user-id': user.id \x7d,\n".data := by
  decide

/-- C1, amended: `remove_x_user_id_headers` is not idempotent on every input,
but it is idempotent on the spec's example inputs — the rule-1 examples (both
value variants), the rule-2 example, the rule-3 example, the rule-4 example
and unrelated text. -/
theorem claim1_amended_idempotent_on_examples :
    (remove_x_user_id_headers (remove_x_user_id_headers
      "const a = 1\nheaders: \x7b 'x-user-id': user.id \x7d,\nconst b = 2\n".data) =
     remove_x_user_id_headers
      "const a = 1\nheaders: \x7b 'x-user-id': user.id \x7d,\nconst b = 2\n".data) ∧
    (remove_x_user_id_headers (remove_x_user_id_headers
      "fetch('/api', \x7b\n  headers: \x7b 'x-user-id': user?.id || '' \x7d\n\x7d)\n".data) =
     remove_x_user_id_headers
      "fetch('/api', \x7b\n  headers: \x7b 'x-user-id': user?.id || '' \x7d\n\x7d)\n".data) ∧
    (remove_x_user_id_headers (remove_x_user_id_headers
      "headers: \x7b\n  'Content-Type': 'application/json',\n  'x-user-id': user.id\n\x7d\n".data) =
     remove_x_user_id_headers
      "headers: \x7b\n  'Content-Type': 'application/json',\n  'x-user-id': user.id\n\x7d\n".data) ∧
    (remove_x_user_id_headers (remove_x_user_id_headers "headers: \x7b\x7d,\nfoo\n".data) =
     remove_x_user_id_headers "headers: \x7b\x7d,\nfoo\n".data) ∧
    (remove_x_user_id_headers (remove_x_user_id_headers
      "\x7b\n  'Content-Type': 'application/json',\n\x7d".data) =
     remove_x_user_id_headers "\x7b\n  'Content-Type': 'application/json',\n\x7d".data) ∧
    (remove_x_user_id_headers (remove_x_user_id_headers "hello world\n".data) =
     remove_x_user_id_headers "hello world\n".data) := by
  refine ⟨by decide, by decide, by decide, by decide, by decide, by decide⟩

/-- C2, counterexample: on the spec's rule-2 example the output is not the
form the claim predicts (trailing comma left behind by rule 2 and then
resolved by rule 4 with an 8-space re-indented closing brace). -/
theorem claim2_counterexample :
    remove_x_user_id_headers
      "headers: \x7b\n  'Content-Type': 'application/json',\n  'x-user-id': user.id\n\x7d\n".data ≠
    "headers: \x7b\n  'Content-Type': 'application/json'\n        \x7d\n".data := by
  decide

/-- C2, amended: rule 2 removes the `'x-user-id': user.id` line together with
its leading comma and newline, and its trailing `\s*` also consumes the
newline before the closing brace, so the `Content-Type` entry is left intact
with the closing brace directly after `'application/json'`; no trailing-comma
artifact remains and rule 4's pattern does not match. -/
theorem claim2_amended_rule2_example :
    remove_x_user_id_headers
      "headers: \x7b\n  'Content-Type': 'application/json',\n  'x-user-id': user.id\n\x7d\n".data =
    "headers: \x7b\n  'Content-Type': 'application/json'\x7d\n".data := by
  decide

/-- C3, counterexample: an input with no `x-user-id` and no `headers:`
substring is still changed, because pattern 4 (dangling `Content-Type`
mapping) needs neither. -/
theorem claim3_counterexample :
    occursIn "x-user-id".data "\x7b 'Content-Type': 'application/json',\n\x7d".data = false ∧
    occursIn "headers:".data "\x7b 'Content-Type': 'application/json',\n\x7d".data = false ∧
    remove_x_user_id_headers "\x7b 'Content-Type': 'application/json',\n\x7d".data ≠
      "\x7b 'Content-Type': 'application/json',\n\x7d".data :=
  ⟨by decide, by decide, by decide⟩

/-- C3, amended: every input containing no `x-user-id`, no `headers:` and
additionally no `Content-Type` substring is returned unchanged (each of the
four patterns forces one of these literals to occur in any text it
matches). -/
theorem claim3_amended_unchanged_of_no_constructs (s : List Char)
    (h1 : occursIn "x-user-id".data s = false)
    (h2 : occursIn "headers:".data s = false)
    (h3 : occursIn "Content-Type".data s = false) :
    remove_x_user_id_headers s = s := by
  simp only [remove_x_user_id_headers]
  rw [reSub_eq_of_requires (fun _ _ _ hm => matchRE_pattern1_headers hm) h2,
    reSub_eq_of_requires (fun _ _ _ hm => matchRE_pattern2_xuid hm) h1,
    reSub_eq_of_requires (fun _ _ _ hm => matchRE_pattern3_headers hm) h2,
    reSub_eq_of_requires (fun _ _ _ hm => matchRE_pattern4_ct hm) h3]

/-- C3, witness for the amended theorem. -/
theorem claim3_amended_witness :
    remove_x_user_id_headers "const x = 1;\n".data = "const x = 1;\n".data :=
  claim3_amended_unchanged_of_no_constructs _ (by decide) (by decide) (by decide)

/-- C4: with a readable file and a non-failing write, the driver writes the
file if and only if the transformed content differs from what was read; when
it is unchanged nothing is written and the "No changes needed" line naming
the file is printed, and when it differs the file is overwritten with the new
content and the confirmation line naming the file is printed. -/
theorem claim4_write_iff_changed (p f c : String) (rest : List String)
    (rf : String → Except String String) (wf : String → String → Except String Unit)
    (hr : rf f = Except.ok c) (hw : wf f (removeStr c) = Except.ok ()) :
    ((main (p :: f :: rest) rf wf).writes ≠ [] ↔ removeStr c ≠ c) ∧
    (removeStr c = c →
      main (p :: f :: rest) rf wf = ⟨["- No changes needed in " ++ f], 0, []⟩) ∧
    (removeStr c ≠ c →
      main (p :: f :: rest) rf wf = ⟨["✓ Fixed " ++ f], 0, [(f, removeStr c)]⟩) := by
  by_cases hc : removeStr c = c
  · have hmain : main (p :: f :: rest) rf wf =
        ⟨["- No changes needed in " ++ f], 0, []⟩ := by
      simp only [main, hr]
      rw [if_neg (not_not_intro hc.symm)]
    refine ⟨?_, fun _ => hmain, fun hne => absurd hc hne⟩
    rw [hmain]
    simp [hc]
  · have hmain : main (p :: f :: rest) rf wf =
        ⟨["✓ Fixed " ++ f], 0, [(f, removeStr c)]⟩ := by
      simp only [main, hr]
      rw [if_pos (fun he => hc he.symm), hw]
    refine ⟨?_, fun he => absurd he hc, fun _ => hmain⟩
    rw [hmain]
    simp [hc]

/-- C4, witness: a file whose content is changed by the transformation is
overwritten with the transformed content and reported as fixed. -/
theorem claim4_witness :
    main ["python3", "a.ts"] (fun _ => Except.ok "headers: \x7b\x7d,\n")
      (fun _ _ => Except.ok ()) =
    ⟨["✓ Fixed a.ts"], 0, [("a.ts", removeStr "headers: \x7b\x7d,\n")]⟩ :=
  (claim4_write_iff_changed "python3" "a.ts" "headers: \x7b\x7d,\n" [] _ _ rfl rfl).2.2
    (by decide)

/-- C7: invoked without a file argument (`sys.argv` is just the program name,
or even empty) the driver prints the usage message and exits with status 1,
independently of the filesystem oracles, reading and writing nothing. -/
theorem claim7_usage (p : String) (rf : String → Except String String)
    (wf : String → String → Except String Unit) :
    main [p] rf wf = ⟨["Usage: python3 remove-x-user-id.py <file>"], 1, []⟩ ∧
    main [] rf wf = ⟨["Usage: python3 remove-x-user-id.py <file>"], 1, []⟩ :=
  ⟨rfl, rfl⟩

/-- C8: a read exception, or a write exception when a write is attempted,
yields exactly the one diagnostic line `✗ Error processing <file>: <msg>` and
exit status 1; with no exception the driver exits with status 0 whether the
file was changed or not. -/
theorem claim8_error_handling (p f e1 e2 c : String) (rest : List String)
    (rf : String → Except String String) (wf : String → String → Except String Unit) :
    (rf f = Except.error e1 →
      main (p :: f :: rest) rf wf =
        ⟨["✗ Error processing " ++ f ++ ": " ++ e1], 1, []⟩) ∧
    (rf f = Except.ok c → removeStr c ≠ c → wf f (removeStr c) = Except.error e2 →
      main (p :: f :: rest) rf wf =
        ⟨["✗ Error processing " ++ f ++ ": " ++ e2], 1, []⟩) ∧
    (rf f = Except.ok c → removeStr c = c →
      main (p :: f :: rest) rf wf = ⟨["- No changes needed in " ++ f], 0, []⟩) ∧
    (rf f = Except.ok c → removeStr c ≠ c → wf f (removeStr c) = Except.ok () →
      main (p :: f :: rest) rf wf = ⟨["✓ Fixed " ++ f], 0, [(f, removeStr c)]⟩) := by
  refine ⟨?_, ?_, ?_, ?_⟩
  · intro hr
    simp only [main, hr]
  · intro hr hne hw
    simp only [main, hr]
    rw [if_pos (fun he => hne he.symm), hw]
  · intro hr he
    simp only [main, hr]
    rw [if_neg (not_not_intro he.symm)]
  · intro hr hne hw
    simp only [main, hr]
    rw [if_pos (fun he => hne he.symm), hw]

/-- C8, witness: the three exception/no-exception outcomes at concrete
inputs. -/
theorem claim8_witness :
    main ["python3", "a.ts"] (fun _ => Except.error "No such file")
      (fun _ _ => Except.ok ()) =
      ⟨["✗ Error processing a.ts: No such file"], 1, []⟩ ∧
    main ["python3", "b.ts"] (fun _ => Except.ok "hello\n") (fun _ _ => Except.ok ()) =
      ⟨["- No changes needed in b.ts"], 0, []⟩ ∧
    main ["python3", "c.ts"] (fun _ => Except.ok "headers: \x7b\x7d,\n")
      (fun _ _ => Except.error "disk full") =
      ⟨["✗ Error processing c.ts: disk full"], 1, []⟩ :=
  ⟨(claim8_error_handling "python3" "a.ts" "No such file" "x" "c" [] _ _).1 rfl,
   (claim8_error_handling "python3" "b.ts" "x" "x" "hello\n" [] _ _).2.2.1 rfl (by decide),
   (claim8_error_handling "python3" "c.ts" "x" "disk full" "headers: \x7b\x7d,\n" []
      _ _).2.1 rfl (by decide) rfl⟩

/-- C5, counterexample: the claim's "remaining text is unaffected" fails when
the text after the removed declaration itself matches pattern 2: here the
whole input is erased, not just the rule-1 declaration. -/
theorem claim5_counterexample :
    remove_x_user_id_headers
      "headers: \x7b 'x-user-id': user.id \x7d,\n,\n'x-user-id': user.id\n".data ≠
      ",\n'x-user-id': user.id\n".data ∧
    remove_x_user_id_headers
      "headers: \x7b 'x-user-id': user.id \x7d,\n,\n'x-user-id': user.id\n".data = [] :=
  ⟨by decide, by decide⟩

/-- C5, amended: rule 1 removes the whole declaration (both value variants),
and the remaining text is unaffected when that remainder matches no rule, as
on these fetch-call inputs; a remainder matching another rule is transformed
further. -/
theorem claim5_amended_rule1_examples :
    remove_x_user_id_headers
      "const r = await fetch(url, \x7b\n  method: 'POST',\n  headers: \x7b 'x-user-id': user.id \x7d,\n  body: JSON.stringify(data)\n\x7d)\n".data =
      "const r = await fetch(url, \x7b\n  method: 'POST',\n    body: JSON.stringify(data)\n\x7d)\n".data ∧
    remove_x_user_id_headers
      "fetch('/api', \x7b\n  headers: \x7b 'x-user-id': user?.id || '' \x7d\n\x7d)\n".data =
      "fetch('/api', \x7b\n  \x7d)\n".data :=
  ⟨by decide, by decide⟩

/-- C6, counterexample: on an input that also contains a rule-1 headers
declaration, the output is not just the input with the dangling mapping
rewritten — the other rule fires as well. -/
theorem claim6_counterexample :
    remove_x_user_id_headers
      "\x7b\n  'Content-Type': 'application/json',\n\x7d\nheaders: \x7b 'x-user-id': user.id \x7d,\n".data ≠
      "\x7b\n  'Content-Type': 'application/json'\n        \x7d\nheaders: \x7b 'x-user-id': user.id \x7d,\n".data ∧
    remove_x_user_id_headers
      "\x7b\n  'Content-Type': 'application/json',\n\x7d\nheaders: \x7b 'x-user-id': user.id \x7d,\n".data =
      "\x7b\n  'Content-Type': 'application/json'\n        \x7d\n".data :=
  ⟨by decide, by decide⟩

/-- C6, amended: a mapping whose only entry is `'Content-Type':
'application/json'` with a trailing comma and a newline before its closing
brace is rewritten to drop the comma and indent the closing brace to exactly
8 spaces, standalone and inside surrounding text that matches no rule; other
rules may additionally transform other parts of the input. -/
theorem claim6_amended_rule4_examples :
    remove_x_user_id_headers "\x7b\n  'Content-Type': 'application/json',\n\x7d".data =
      "\x7b\n  'Content-Type': 'application/json'\n        \x7d".data ∧
    remove_x_user_id_headers
      "const opts = \x7b\n  'Content-Type': 'application/json',\n\x7d;\n".data =
      "const opts = \x7b\n  'Content-Type': 'application/json'\n        \x7d;\n".data :=
  ⟨by decide, by decide⟩

/-- C9, counterexample: the value expression `user.idx` differs from
`user.id`/`user?.id`, yet its entry is not left unchanged — pattern 2 matches
the `user.id` prefix of the value and mangles the entry, leaving only `x`. -/
theorem claim9_counterexample :
    remove_x_user_id_headers ",\n'x-user-id': user.idx".data ≠
      ",\n'x-user-id': user.idx".data ∧
    remove_x_user_id_headers ",\n'x-user-id': user.idx".data = "x".data :=
  ⟨by decide, by decide⟩

/-- C9, amended: an `x-user-id` entry is left unchanged whenever its value
expression does not contain `user.id` or `user?.id` (values merely extending
them, such as `user.idx`, are still mangled), provided the input also
contains none of the `headers:`/`Content-Type` constructs consumed by rules
1, 3 and 4: any such input is returned unchanged in full. -/
theorem claim9_amended_other_values_unchanged (s : List Char)
    (h1 : occursIn "user.id".data s = false)
    (h2 : occursIn "user?.id".data s = false)
    (h3 : occursIn "headers:".data s = false)
    (h4 : occursIn "Content-Type".data s = false) :
    remove_x_user_id_headers s = s := by
  simp only [remove_x_user_id_headers]
  rw [reSub_eq_of_requires (fun _ _ _ hm => matchRE_pattern1_headers hm) h3,
    reSub_eq_of_requires2 (fun _ _ _ hm => matchRE_pattern2_userid hm) h1 h2,
    reSub_eq_of_requires (fun _ _ _ hm => matchRE_pattern3_headers hm) h3,
    reSub_eq_of_requires (fun _ _ _ hm => matchRE_pattern4_ct hm) h4]

/-- C9, witness for the amended theorem: an `x-user-id` entry whose value is
`session.id` is left unchanged. -/
theorem claim9_amended_witness :
    remove_x_user_id_headers "'x-user-id': session.id\n".data =
      "'x-user-id': session.id\n".data :=
  claim9_amended_other_values_unchanged _ (by decide) (by decide) (by decide) (by decide)

/-- C10: with two or more command-line arguments the driver behaves exactly
as if invoked with only the first one; the extra arguments are ignored. -/
theorem claim10_extra_args_ignored (p a : String) (rest : List String)
    (rf : String → Except String String) (wf : String → String → Except String Unit) :
    main (p :: a :: rest) rf wf = main [p, a] rf wf :=
  rfl

end RemoveXUserId
